import Mathlib

/-!
# Verification of `src/evb/channel_data.rs` (eventbuilder)

A shallow embedding of the event-builder core: the `ChannelDataField` catalog,
the `ChannelData` row builder, and `append_event`.  Rust `f64` values are
idealized as exact rationals (`ℚ`); the two transcendental ingredients of the
physics section (`f64::atan` and `std::f64::consts::PI`) are abstracted as an
explicit parameter record `PhysicsFns`, so every statement below is
universally quantified over them.
-/

namespace EVB

/-- `const INVALID_VALUE: f64 = -1.0e6;` — the sentinel value. -/
def INVALID_VALUE : ℚ := -1000000

/-- The `ChannelDataField` enum, constructors in the source's declaration
order (the derived `Ord`/iteration order both follow this order). -/
inductive ChannelDataField
  | AnodeFrontEnergy
  | AnodeFrontShort
  | AnodeFrontTime
  | AnodeBackEnergy
  | AnodeBackShort
  | AnodeBackTime
  | ScintLeftEnergy
  | ScintLeftShort
  | ScintLeftTime
  | ScintRightEnergy
  | ScintRightShort
  | ScintRightTime
  | CathodeEnergy
  | CathodeShort
  | CathodeTime
  | DelayFrontLeftEnergy
  | DelayFrontLeftShort
  | DelayFrontLeftTime
  | DelayFrontRightEnergy
  | DelayFrontRightShort
  | DelayFrontRightTime
  | DelayBackLeftEnergy
  | DelayBackLeftShort
  | DelayBackLeftTime
  | DelayBackRightEnergy
  | DelayBackRightShort
  | DelayBackRightTime
  | MonitorEnergy
  | MonitorShort
  | MonitorTime
  | X1
  | X2
  | Xavg
  | Theta
  | Cebra0Energy
  | Cebra1Energy
  | Cebra2Energy
  | Cebra3Energy
  | Cebra4Energy
  | Cebra5Energy
  | Cebra6Energy
  | Cebra7Energy
  | Cebra8Energy
  | Cebra0Short
  | Cebra1Short
  | Cebra2Short
  | Cebra3Short
  | Cebra4Short
  | Cebra5Short
  | Cebra6Short
  | Cebra7Short
  | Cebra8Short
  | Cebra0Time
  | Cebra1Time
  | Cebra2Time
  | Cebra3Time
  | Cebra4Time
  | Cebra5Time
  | Cebra6Time
  | Cebra7Time
  | Cebra8Time
  | Cebra0RelTime
  | Cebra1RelTime
  | Cebra2RelTime
  | Cebra3RelTime
  | Cebra4RelTime
  | Cebra5RelTime
  | Cebra6RelTime
  | Cebra7RelTime
  | Cebra8RelTime
deriving DecidableEq, Repr, Fintype

open ChannelDataField

/-- `ChannelDataField::get_field_vec()` — all fields, in declaration order
(`ChannelDataField::iter().collect()`). -/
def getFieldVec : List ChannelDataField :=
  [AnodeFrontEnergy, AnodeFrontShort, AnodeFrontTime,
   AnodeBackEnergy, AnodeBackShort, AnodeBackTime,
   ScintLeftEnergy, ScintLeftShort, ScintLeftTime,
   ScintRightEnergy, ScintRightShort, ScintRightTime,
   CathodeEnergy, CathodeShort, CathodeTime,
   DelayFrontLeftEnergy, DelayFrontLeftShort, DelayFrontLeftTime,
   DelayFrontRightEnergy, DelayFrontRightShort, DelayFrontRightTime,
   DelayBackLeftEnergy, DelayBackLeftShort, DelayBackLeftTime,
   DelayBackRightEnergy, DelayBackRightShort, DelayBackRightTime,
   MonitorEnergy, MonitorShort, MonitorTime,
   X1, X2, Xavg, Theta,
   Cebra0Energy, Cebra1Energy, Cebra2Energy, Cebra3Energy, Cebra4Energy,
   Cebra5Energy, Cebra6Energy, Cebra7Energy, Cebra8Energy,
   Cebra0Short, Cebra1Short, Cebra2Short, Cebra3Short, Cebra4Short,
   Cebra5Short, Cebra6Short, Cebra7Short, Cebra8Short,
   Cebra0Time, Cebra1Time, Cebra2Time, Cebra3Time, Cebra4Time,
   Cebra5Time, Cebra6Time, Cebra7Time, Cebra8Time,
   Cebra0RelTime, Cebra1RelTime, Cebra2RelTime, Cebra3RelTime, Cebra4RelTime,
   Cebra5RelTime, Cebra6RelTime, Cebra7RelTime, Cebra8RelTime]

/-- Modelled from the spec: the logical channel roles (`ChannelType` in
`channel_map.rs`, which is not under `src/`).  The spec lists the roles as
front/back anode, left/right scintillator, cathode, the four delay-line ends,
monitor, and the nine auxiliary (Cebra) detectors; these are exactly the
variants referenced by `channel_data.rs`. -/
inductive ChannelType
  | AnodeFront
  | AnodeBack
  | ScintLeft
  | ScintRight
  | Cathode
  | DelayFrontLeft
  | DelayFrontRight
  | DelayBackLeft
  | DelayBackRight
  | Monitor
  | Cebra0
  | Cebra1
  | Cebra2
  | Cebra3
  | Cebra4
  | Cebra5
  | Cebra6
  | Cebra7
  | Cebra8
deriving DecidableEq, Repr, Fintype

/-- Modelled from the spec: the `ChannelMap` collaborator (`channel_map.rs`
is not under `src/`).  Per spec §6 it exposes a role-membership query
`contains_role(role) -> bool` and a lookup `lookup(channel_id) ->
Option<role>`; raw channel identifiers are modelled as `Nat`. -/
structure ChannelMap where
  containsChannelType : ChannelType → Bool
  getChannelData : Nat → Option ChannelType

/-- Modelled from the spec: a hit record (`CompassData` in `compass_data.rs`,
not under `src/`): a channel identifier plus energy, short energy and
timestamp, the floats idealized as `ℚ`. -/
structure CompassData where
  uuid : Nat
  energy : ℚ
  energy_short : ℚ
  timestamp : ℚ
deriving DecidableEq, Repr

/-- `all_delay_lines_present` in `get_filtered_field_vec`. -/
def allDelayLinesPresent (channel_map : ChannelMap) : Bool :=
  channel_map.containsChannelType ChannelType.DelayFrontLeft
    && channel_map.containsChannelType ChannelType.DelayFrontRight
    && channel_map.containsChannelType ChannelType.DelayBackLeft
    && channel_map.containsChannelType ChannelType.DelayBackRight

/-- The per-field inclusion predicate used by the filter closure inside
`ChannelDataField::get_filtered_field_vec`, arm for arm. -/
def fieldIncluded (channel_map : ChannelMap) : ChannelDataField → Bool
  | X1 | X2 | Xavg | Theta => allDelayLinesPresent channel_map
  | AnodeFrontEnergy | AnodeFrontShort | AnodeFrontTime =>
      channel_map.containsChannelType ChannelType.AnodeFront
  | AnodeBackEnergy | AnodeBackShort | AnodeBackTime =>
      channel_map.containsChannelType ChannelType.AnodeBack
  | ScintLeftEnergy | ScintLeftShort | ScintLeftTime =>
      channel_map.containsChannelType ChannelType.ScintLeft
  | ScintRightEnergy | ScintRightShort | ScintRightTime =>
      channel_map.containsChannelType ChannelType.ScintRight
  | CathodeEnergy | CathodeShort | CathodeTime =>
      channel_map.containsChannelType ChannelType.Cathode
  | DelayFrontLeftEnergy | DelayFrontLeftShort | DelayFrontLeftTime =>
      channel_map.containsChannelType ChannelType.DelayFrontLeft
  | DelayFrontRightEnergy | DelayFrontRightShort | DelayFrontRightTime =>
      channel_map.containsChannelType ChannelType.DelayFrontRight
  | DelayBackLeftEnergy | DelayBackLeftShort | DelayBackLeftTime =>
      channel_map.containsChannelType ChannelType.DelayBackLeft
  | DelayBackRightEnergy | DelayBackRightShort | DelayBackRightTime =>
      channel_map.containsChannelType ChannelType.DelayBackRight
  | MonitorEnergy | MonitorShort | MonitorTime =>
      channel_map.containsChannelType ChannelType.Monitor
  | Cebra0Energy | Cebra0Short | Cebra0Time =>
      channel_map.containsChannelType ChannelType.Cebra0
  | Cebra0RelTime =>
      channel_map.containsChannelType ChannelType.Cebra0
        && channel_map.containsChannelType ChannelType.ScintLeft
  | Cebra1Energy | Cebra1Short | Cebra1Time =>
      channel_map.containsChannelType ChannelType.Cebra1
  | Cebra1RelTime =>
      channel_map.containsChannelType ChannelType.Cebra1
        && channel_map.containsChannelType ChannelType.ScintLeft
  | Cebra2Energy | Cebra2Short | Cebra2Time =>
      channel_map.containsChannelType ChannelType.Cebra2
  | Cebra2RelTime =>
      channel_map.containsChannelType ChannelType.Cebra2
        && channel_map.containsChannelType ChannelType.ScintLeft
  | Cebra3Energy | Cebra3Short | Cebra3Time =>
      channel_map.containsChannelType ChannelType.Cebra3
  | Cebra3RelTime =>
      channel_map.containsChannelType ChannelType.Cebra3
        && channel_map.containsChannelType ChannelType.ScintLeft
  | Cebra4Energy | Cebra4Short | Cebra4Time =>
      channel_map.containsChannelType ChannelType.Cebra4
  | Cebra4RelTime =>
      channel_map.containsChannelType ChannelType.Cebra4
        && channel_map.containsChannelType ChannelType.ScintLeft
  | Cebra5Energy | Cebra5Short | Cebra5Time =>
      channel_map.containsChannelType ChannelType.Cebra5
  | Cebra5RelTime =>
      channel_map.containsChannelType ChannelType.Cebra5
        && channel_map.containsChannelType ChannelType.ScintLeft
  | Cebra6Energy | Cebra6Short | Cebra6Time =>
      channel_map.containsChannelType ChannelType.Cebra6
  | Cebra6RelTime =>
      channel_map.containsChannelType ChannelType.Cebra6
        && channel_map.containsChannelType ChannelType.ScintLeft
  | Cebra7Energy | Cebra7Short | Cebra7Time =>
      channel_map.containsChannelType ChannelType.Cebra7
  | Cebra7RelTime =>
      channel_map.containsChannelType ChannelType.Cebra7
        && channel_map.containsChannelType ChannelType.ScintLeft
  | Cebra8Energy | Cebra8Short | Cebra8Time =>
      channel_map.containsChannelType ChannelType.Cebra8
  | Cebra8RelTime =>
      channel_map.containsChannelType ChannelType.Cebra8
        && channel_map.containsChannelType ChannelType.ScintLeft

/-- `ChannelDataField::get_filtered_field_vec` — the declaration-order field
list filtered by `fieldIncluded`. -/
def getFilteredFieldVec (channel_map : ChannelMap) : List ChannelDataField :=
  getFieldVec.filter (fieldIncluded channel_map)

/-- The mutable locals of `append_event` that capture timestamps during hit
dispatch (`dfl_time`, `dfr_time`, `dbl_time`, `dbr_time`, `scint_left_time`,
`cebra0_time` … `cebra8_time`). -/
structure EventTimes where
  dfl_time : ℚ
  dfr_time : ℚ
  dbl_time : ℚ
  dbr_time : ℚ
  scint_left_time : ℚ
  cebra0_time : ℚ
  cebra1_time : ℚ
  cebra2_time : ℚ
  cebra3_time : ℚ
  cebra4_time : ℚ
  cebra5_time : ℚ
  cebra6_time : ℚ
  cebra7_time : ℚ
  cebra8_time : ℚ
deriving DecidableEq, Repr

/-- Initial values of the dispatch locals: all `INVALID_VALUE`. -/
def initTimes : EventTimes :=
  ⟨INVALID_VALUE, INVALID_VALUE, INVALID_VALUE, INVALID_VALUE, INVALID_VALUE,
   INVALID_VALUE, INVALID_VALUE, INVALID_VALUE, INVALID_VALUE, INVALID_VALUE,
   INVALID_VALUE, INVALID_VALUE, INVALID_VALUE, INVALID_VALUE⟩

/-- The (Energy, Short, Time) field triple written by each arm of the hit
dispatch `match` in `append_event`.  `Monitor` has no arm there — it falls
into the wildcard arm and returns `none` here. -/
def roleFields : ChannelType →
    Option (ChannelDataField × ChannelDataField × ChannelDataField)
  | ChannelType.ScintLeft => some (ScintLeftEnergy, ScintLeftShort, ScintLeftTime)
  | ChannelType.ScintRight => some (ScintRightEnergy, ScintRightShort, ScintRightTime)
  | ChannelType.Cathode => some (CathodeEnergy, CathodeShort, CathodeTime)
  | ChannelType.DelayFrontRight =>
      some (DelayFrontRightEnergy, DelayFrontRightShort, DelayFrontRightTime)
  | ChannelType.DelayFrontLeft =>
      some (DelayFrontLeftEnergy, DelayFrontLeftShort, DelayFrontLeftTime)
  | ChannelType.DelayBackRight =>
      some (DelayBackRightEnergy, DelayBackRightShort, DelayBackRightTime)
  | ChannelType.DelayBackLeft =>
      some (DelayBackLeftEnergy, DelayBackLeftShort, DelayBackLeftTime)
  | ChannelType.AnodeFront => some (AnodeFrontEnergy, AnodeFrontShort, AnodeFrontTime)
  | ChannelType.AnodeBack => some (AnodeBackEnergy, AnodeBackShort, AnodeBackTime)
  | ChannelType.Cebra0 => some (Cebra0Energy, Cebra0Short, Cebra0Time)
  | ChannelType.Cebra1 => some (Cebra1Energy, Cebra1Short, Cebra1Time)
  | ChannelType.Cebra2 => some (Cebra2Energy, Cebra2Short, Cebra2Time)
  | ChannelType.Cebra3 => some (Cebra3Energy, Cebra3Short, Cebra3Time)
  | ChannelType.Cebra4 => some (Cebra4Energy, Cebra4Short, Cebra4Time)
  | ChannelType.Cebra5 => some (Cebra5Energy, Cebra5Short, Cebra5Time)
  | ChannelType.Cebra6 => some (Cebra6Energy, Cebra6Short, Cebra6Time)
  | ChannelType.Cebra7 => some (Cebra7Energy, Cebra7Short, Cebra7Time)
  | ChannelType.Cebra8 => some (Cebra8Energy, Cebra8Short, Cebra8Time)
  | ChannelType.Monitor => none

/-- The local-timestamp captures performed by the dispatch arms: `ScintLeft`,
the four delay lines and `Cebra0`..`Cebra8` record `hit.timestamp` into their
local; the remaining arms capture nothing. -/
def updateTimes (t : EventTimes) : ChannelType → ℚ → EventTimes
  | ChannelType.ScintLeft, ts => { t with scint_left_time := ts }
  | ChannelType.DelayFrontRight, ts => { t with dfr_time := ts }
  | ChannelType.DelayFrontLeft, ts => { t with dfl_time := ts }
  | ChannelType.DelayBackRight, ts => { t with dbr_time := ts }
  | ChannelType.DelayBackLeft, ts => { t with dbl_time := ts }
  | ChannelType.Cebra0, ts => { t with cebra0_time := ts }
  | ChannelType.Cebra1, ts => { t with cebra1_time := ts }
  | ChannelType.Cebra2, ts => { t with cebra2_time := ts }
  | ChannelType.Cebra3, ts => { t with cebra3_time := ts }
  | ChannelType.Cebra4, ts => { t with cebra4_time := ts }
  | ChannelType.Cebra5, ts => { t with cebra5_time := ts }
  | ChannelType.Cebra6, ts => { t with cebra6_time := ts }
  | ChannelType.Cebra7, ts => { t with cebra7_time := ts }
  | ChannelType.Cebra8, ts => { t with cebra8_time := ts }
  | _, _ => t

/-- `ChannelData`: the per-field columns (a `BTreeMap<ChannelDataField,
Vec<f64>>`, modelled as a partial function from fields to columns) and the
row counter. -/
structure ChannelData where
  fields : ChannelDataField → Option (List ℚ)
  rows : Nat

/-- `ChannelData::new(channel_map)` — inserts an empty column for every field
of `get_filtered_field_vec(channel_map)`. -/
def ChannelData.new (channel_map : ChannelMap) : ChannelData where
  fields := fun f => if f ∈ getFilteredFieldVec channel_map then some [] else none
  rows := 0

/-- `ChannelData::push_defaults` — for every column shorter than `rows`,
push one `INVALID_VALUE`. -/
def ChannelData.pushDefaults (d : ChannelData) : ChannelData :=
  { d with
    fields := fun f =>
      (d.fields f).map fun l =>
        if l.length < d.rows then l ++ [INVALID_VALUE] else l }

/-- `if let Some(back) = list.last_mut() { *back = value }` — replace the
last element of a nonempty list, leave the empty list alone. -/
def setLast (l : List ℚ) (value : ℚ) : List ℚ :=
  if l = [] then [] else l.dropLast ++ [value]

/-- `ChannelData::set_value` — if the field has a column, overwrite its last
element (no-op on a missing field or an empty column). -/
def ChannelData.setValue (d : ChannelData) (field : ChannelDataField) (value : ℚ) :
    ChannelData :=
  match d.fields field with
  | none => d
  | some l =>
      { d with fields := fun g => if g = field then some (setLast l value) else d.fields g }

/-- Column-update effect of one iteration of the dispatch loop in
`append_event`: resolve `hit.uuid` through the map (`continue` on `None`),
then write energy / short / timestamp into the arm's field triple
(the wildcard arm — `Monitor` — writes nothing). -/
def hitFields (map : ChannelMap) (d : ChannelData) (hit : CompassData) : ChannelData :=
  match map.getChannelData hit.uuid with
  | none => d
  | some ct =>
      match roleFields ct with
      | none => d
      | some (fe, fs, ft) =>
          ((d.setValue fe hit.energy).setValue fs hit.energy_short).setValue ft hit.timestamp

/-- Local-timestamp effect of one iteration of the dispatch loop. -/
def hitTimes (map : ChannelMap) (t : EventTimes) (hit : CompassData) : EventTimes :=
  match map.getChannelData hit.uuid with
  | none => t
  | some ct => updateTimes t ct hit.timestamp

/-- One full iteration of the dispatch loop (columns and locals together). -/
def processHit (map : ChannelMap) (st : ChannelData × EventTimes) (hit : CompassData) :
    ChannelData × EventTimes :=
  (hitFields map st.1 hit, hitTimes map st.2 hit)

/-- The dispatch locals after the whole loop, as a function of the event. -/
def collectTimes (map : ChannelMap) (event : List CompassData) : EventTimes :=
  event.foldl (hitTimes map) initTimes

/-- The transcendental ingredients of the physics section, abstracted:
`atan` stands for `f64::atan`, `pi` for `std::f64::consts::PI`. -/
structure PhysicsFns where
  atan : ℚ → ℚ
  pi : ℚ

/-- The value held by the local `x1` after the first physics `if` of
`append_event`: `(dfl_time - dfr_time) * 0.5 * 1.0 / 2.1` when both front
delay-line locals are valid, otherwise its initializer `INVALID_VALUE`. -/
def computedX1 (t : EventTimes) : ℚ :=
  if t.dfr_time ≠ INVALID_VALUE ∧ t.dfl_time ≠ INVALID_VALUE then
    (t.dfl_time - t.dfr_time) * 0.5 * 1.0 / 2.1
  else INVALID_VALUE

/-- The value held by the local `x2` after the second physics `if`:
`(dbl_time - dbr_time) * 0.5 * 1.0 / 1.98` when both back delay-line locals
are valid, otherwise `INVALID_VALUE`. -/
def computedX2 (t : EventTimes) : ℚ :=
  if t.dbr_time ≠ INVALID_VALUE ∧ t.dbl_time ≠ INVALID_VALUE then
    (t.dbl_time - t.dbr_time) * 0.5 * 1.0 / 1.98
  else INVALID_VALUE

/-- The value written to `Theta` by the three-way branch on
`diff = x2 - x1`: `atan(diff / 36.0)` when `diff > 0`,
`PI + atan(diff / 36.0)` when `diff < 0`, and `PI * 0.5` when `diff == 0`. -/
def thetaVal (P : PhysicsFns) (diff : ℚ) : ℚ :=
  if diff > 0 then P.atan (diff / 36.0)
  else if diff < 0 then P.pi + P.atan (diff / 36.0)
  else P.pi * 0.5

/-- The value written to `Xavg` by the `match weights` statement:
`w.0 * x1 + w.1 * x2` when weights are given, `INVALID_VALUE` otherwise. -/
def xavgVal (weights : Option (ℚ × ℚ)) (x1 x2 : ℚ) : ℚ :=
  match weights with
  | some w => w.1 * x1 + w.2 * x2
  | none => INVALID_VALUE

/-- The `if x1 != INVALID_VALUE && x2 != INVALID_VALUE` block of
`append_event`: write `Theta` according to the sign of `diff = x2 - x1`,
then write `Xavg` from the weights (or the sentinel when absent). -/
def thetaXavg (P : PhysicsFns) (weights : Option (ℚ × ℚ)) (x1 x2 : ℚ)
    (d : ChannelData) : ChannelData :=
  if x1 ≠ INVALID_VALUE ∧ x2 ≠ INVALID_VALUE then
    (d.setValue Theta (thetaVal P (x2 - x1))).setValue Xavg (xavgVal weights x1 x2)
  else d

/-- One `if scint_left_time != INVALID_VALUE && cebraN_time != INVALID_VALUE`
relative-time block of `append_event`. -/
def relTimeStep (scint cebraT : ℚ) (f : ChannelDataField) (d : ChannelData) :
    ChannelData :=
  if scint ≠ INVALID_VALUE ∧ cebraT ≠ INVALID_VALUE then
    d.setValue f (cebraT - scint)
  else d

/-- The whole physics tail of `append_event` (everything after the dispatch
loop), as a function of the captured locals `t` and the dispatched columns. -/
def physics (P : PhysicsFns) (weights : Option (ℚ × ℚ)) (t : EventTimes)
    (d : ChannelData) : ChannelData :=
  let x1 := computedX1 t
  let d3 :=
    if t.dfr_time ≠ INVALID_VALUE ∧ t.dfl_time ≠ INVALID_VALUE then
      d.setValue X1 x1
    else d
  let x2 := computedX2 t
  let d4 :=
    if t.dbr_time ≠ INVALID_VALUE ∧ t.dbl_time ≠ INVALID_VALUE then
      d3.setValue X2 x2
    else d3
  let d5 := thetaXavg P weights x1 x2 d4
  let d6 := relTimeStep t.scint_left_time t.cebra0_time Cebra0RelTime d5
  let d7 := relTimeStep t.scint_left_time t.cebra1_time Cebra1RelTime d6
  let d8 := relTimeStep t.scint_left_time t.cebra2_time Cebra2RelTime d7
  let d9 := relTimeStep t.scint_left_time t.cebra3_time Cebra3RelTime d8
  let d10 := relTimeStep t.scint_left_time t.cebra4_time Cebra4RelTime d9
  let d11 := relTimeStep t.scint_left_time t.cebra5_time Cebra5RelTime d10
  let d12 := relTimeStep t.scint_left_time t.cebra6_time Cebra6RelTime d11
  let d13 := relTimeStep t.scint_left_time t.cebra7_time Cebra7RelTime d12
  relTimeStep t.scint_left_time t.cebra8_time Cebra8RelTime d13

/-- `ChannelData::append_event(event, map, weights)`: bump `rows`, pad every
column with the sentinel (`push_defaults`), dispatch each hit, then run the
physics tail (X1, X2, Theta, Xavg and the nine Cebra relative times). -/
def ChannelData.appendEvent (d : ChannelData) (P : PhysicsFns)
    (event : List CompassData) (map : ChannelMap) (weights : Option (ℚ × ℚ)) :
    ChannelData :=
  let d1 : ChannelData := { d with rows := d.rows + 1 }
  let d2 := d1.pushDefaults
  let st := event.foldl (processHit map) (d2, initTimes)
  physics P weights st.2 st.1

/-- `ChannelData::convert_to_series` name strings: `AsRefStr` yields the
variant identifier itself. -/
def fieldName : ChannelDataField → String
  | AnodeFrontEnergy => "AnodeFrontEnergy"
  | AnodeFrontShort => "AnodeFrontShort"
  | AnodeFrontTime => "AnodeFrontTime"
  | AnodeBackEnergy => "AnodeBackEnergy"
  | AnodeBackShort => "AnodeBackShort"
  | AnodeBackTime => "AnodeBackTime"
  | ScintLeftEnergy => "ScintLeftEnergy"
  | ScintLeftShort => "ScintLeftShort"
  | ScintLeftTime => "ScintLeftTime"
  | ScintRightEnergy => "ScintRightEnergy"
  | ScintRightShort => "ScintRightShort"
  | ScintRightTime => "ScintRightTime"
  | CathodeEnergy => "CathodeEnergy"
  | CathodeShort => "CathodeShort"
  | CathodeTime => "CathodeTime"
  | DelayFrontLeftEnergy => "DelayFrontLeftEnergy"
  | DelayFrontLeftShort => "DelayFrontLeftShort"
  | DelayFrontLeftTime => "DelayFrontLeftTime"
  | DelayFrontRightEnergy => "DelayFrontRightEnergy"
  | DelayFrontRightShort => "DelayFrontRightShort"
  | DelayFrontRightTime => "DelayFrontRightTime"
  | DelayBackLeftEnergy => "DelayBackLeftEnergy"
  | DelayBackLeftShort => "DelayBackLeftShort"
  | DelayBackLeftTime => "DelayBackLeftTime"
  | DelayBackRightEnergy => "DelayBackRightEnergy"
  | DelayBackRightShort => "DelayBackRightShort"
  | DelayBackRightTime => "DelayBackRightTime"
  | MonitorEnergy => "MonitorEnergy"
  | MonitorShort => "MonitorShort"
  | MonitorTime => "MonitorTime"
  | X1 => "X1"
  | X2 => "X2"
  | Xavg => "Xavg"
  | Theta => "Theta"
  | Cebra0Energy => "Cebra0Energy"
  | Cebra1Energy => "Cebra1Energy"
  | Cebra2Energy => "Cebra2Energy"
  | Cebra3Energy => "Cebra3Energy"
  | Cebra4Energy => "Cebra4Energy"
  | Cebra5Energy => "Cebra5Energy"
  | Cebra6Energy => "Cebra6Energy"
  | Cebra7Energy => "Cebra7Energy"
  | Cebra8Energy => "Cebra8Energy"
  | Cebra0Short => "Cebra0Short"
  | Cebra1Short => "Cebra1Short"
  | Cebra2Short => "Cebra2Short"
  | Cebra3Short => "Cebra3Short"
  | Cebra4Short => "Cebra4Short"
  | Cebra5Short => "Cebra5Short"
  | Cebra6Short => "Cebra6Short"
  | Cebra7Short => "Cebra7Short"
  | Cebra8Short => "Cebra8Short"
  | Cebra0Time => "Cebra0Time"
  | Cebra1Time => "Cebra1Time"
  | Cebra2Time => "Cebra2Time"
  | Cebra3Time => "Cebra3Time"
  | Cebra4Time => "Cebra4Time"
  | Cebra5Time => "Cebra5Time"
  | Cebra6Time => "Cebra6Time"
  | Cebra7Time => "Cebra7Time"
  | Cebra8Time => "Cebra8Time"
  | Cebra0RelTime => "Cebra0RelTime"
  | Cebra1RelTime => "Cebra1RelTime"
  | Cebra2RelTime => "Cebra2RelTime"
  | Cebra3RelTime => "Cebra3RelTime"
  | Cebra4RelTime => "Cebra4RelTime"
  | Cebra5RelTime => "Cebra5RelTime"
  | Cebra6RelTime => "Cebra6RelTime"
  | Cebra7RelTime => "Cebra7RelTime"
  | Cebra8RelTime => "Cebra8RelTime"

/-- `ChannelData::convert_to_series` — hand each present column over as a
`(name, values)` pair, iterating the `BTreeMap` in key order (the derived
`Ord` order is declaration order, i.e. the order of `getFieldVec`). -/
def ChannelData.convertToSeries (d : ChannelData) : List (String × List ℚ) :=
  getFieldVec.filterMap fun f => (d.fields f).map fun l => (fieldName f, l)

/-! ## Derived notions used by the statements -/

/-- The column-alignment invariant of spec §3: every column present in the
table has length `rows`. -/
def Aligned (d : ChannelData) : Prop :=
  ∀ f l, d.fields f = some l → l.length = d.rows

/-- The last element of a field's column (the "just-appended slot"), when
the field is present and its column nonempty. -/
def lastVal (d : ChannelData) (f : ChannelDataField) : Option ℚ :=
  (d.fields f).bind List.getLast?

/-- The hits of an event whose channel identifier resolves to role `r`. -/
def hitsForRole (map : ChannelMap) (event : List CompassData) (r : ChannelType) :
    List CompassData :=
  event.filter fun h => decide (map.getChannelData h.uuid = some r)

/-- The columns written by the dispatch arm of role `r` (empty for the
wildcard arm). -/
def tripletFieldsOf (r : ChannelType) : List ChannelDataField :=
  match roleFields r with
  | none => []
  | some (fe, fs, ft) => [fe, fs, ft]

/-- Fields written by the physics tail rather than copied from a hit. -/
def isDerivedField : ChannelDataField → Bool
  | X1 | X2 | Xavg | Theta => true
  | Cebra0RelTime | Cebra1RelTime | Cebra2RelTime | Cebra3RelTime
  | Cebra4RelTime | Cebra5RelTime | Cebra6RelTime | Cebra7RelTime
  | Cebra8RelTime => true
  | _ => false

/-- The nine relative-time fields, indexed. -/
def cebraRelField : Fin 9 → ChannelDataField
  | 0 => Cebra0RelTime
  | 1 => Cebra1RelTime
  | 2 => Cebra2RelTime
  | 3 => Cebra3RelTime
  | 4 => Cebra4RelTime
  | 5 => Cebra5RelTime
  | 6 => Cebra6RelTime
  | 7 => Cebra7RelTime
  | 8 => Cebra8RelTime

/-- The nine Cebra timestamp locals, indexed. -/
def cebraTimeOf (t : EventTimes) : Fin 9 → ℚ
  | 0 => t.cebra0_time
  | 1 => t.cebra1_time
  | 2 => t.cebra2_time
  | 3 => t.cebra3_time
  | 4 => t.cebra4_time
  | 5 => t.cebra5_time
  | 6 => t.cebra6_time
  | 7 => t.cebra7_time
  | 8 => t.cebra8_time

/-- One `append_event` call's arguments: physics functions, event, map,
weights. -/
def AppendCall : Type :=
  PhysicsFns × List CompassData × ChannelMap × Option (ℚ × ℚ)

/-- Run a sequence of `append_event` calls against a builder. -/
def runAppends (d : ChannelData) : List AppendCall → ChannelData
  | [] => d
  | c :: cs => runAppends (d.appendEvent c.1 c.2.1 c.2.2.1 c.2.2.2) cs

/-! ## The spec-side selection rule (for the refinement claim C2) -/

/-- Modelled from the spec: the single backing role of each per-detector
{Energy, Short, Time} triplet field (`none` for the derived fields). -/
def backingRole : ChannelDataField → Option ChannelType
  | AnodeFrontEnergy | AnodeFrontShort | AnodeFrontTime => some ChannelType.AnodeFront
  | AnodeBackEnergy | AnodeBackShort | AnodeBackTime => some ChannelType.AnodeBack
  | ScintLeftEnergy | ScintLeftShort | ScintLeftTime => some ChannelType.ScintLeft
  | ScintRightEnergy | ScintRightShort | ScintRightTime => some ChannelType.ScintRight
  | CathodeEnergy | CathodeShort | CathodeTime => some ChannelType.Cathode
  | DelayFrontLeftEnergy | DelayFrontLeftShort | DelayFrontLeftTime =>
      some ChannelType.DelayFrontLeft
  | DelayFrontRightEnergy | DelayFrontRightShort | DelayFrontRightTime =>
      some ChannelType.DelayFrontRight
  | DelayBackLeftEnergy | DelayBackLeftShort | DelayBackLeftTime =>
      some ChannelType.DelayBackLeft
  | DelayBackRightEnergy | DelayBackRightShort | DelayBackRightTime =>
      some ChannelType.DelayBackRight
  | MonitorEnergy | MonitorShort | MonitorTime => some ChannelType.Monitor
  | Cebra0Energy | Cebra0Short | Cebra0Time => some ChannelType.Cebra0
  | Cebra1Energy | Cebra1Short | Cebra1Time => some ChannelType.Cebra1
  | Cebra2Energy | Cebra2Short | Cebra2Time => some ChannelType.Cebra2
  | Cebra3Energy | Cebra3Short | Cebra3Time => some ChannelType.Cebra3
  | Cebra4Energy | Cebra4Short | Cebra4Time => some ChannelType.Cebra4
  | Cebra5Energy | Cebra5Short | Cebra5Time => some ChannelType.Cebra5
  | Cebra6Energy | Cebra6Short | Cebra6Time => some ChannelType.Cebra6
  | Cebra7Energy | Cebra7Short | Cebra7Time => some ChannelType.Cebra7
  | Cebra8Energy | Cebra8Short | Cebra8Time => some ChannelType.Cebra8
  | _ => none

/-- Modelled from the spec: the auxiliary role backing each AuxN-RelTime
field. -/
def relTimeAux : ChannelDataField → Option ChannelType
  | Cebra0RelTime => some ChannelType.Cebra0
  | Cebra1RelTime => some ChannelType.Cebra1
  | Cebra2RelTime => some ChannelType.Cebra2
  | Cebra3RelTime => some ChannelType.Cebra3
  | Cebra4RelTime => some ChannelType.Cebra4
  | Cebra5RelTime => some ChannelType.Cebra5
  | Cebra6RelTime => some ChannelType.Cebra6
  | Cebra7RelTime => some ChannelType.Cebra7
  | Cebra8RelTime => some ChannelType.Cebra8
  | _ => none

/-- The four derived position/angle fields. -/
def isPositionField : ChannelDataField → Bool
  | X1 | X2 | Xavg | Theta => true
  | _ => false

/-- Modelled from the spec (§4.1 selection rule, stated field-by-field): the
four position/angle fields require all four delay-line roles; an AuxN-RelTime
field requires both its auxiliary role and the reference scintillator; a
per-detector triplet field requires its single backing role. -/
def specFieldIncluded (m : ChannelMap) (f : ChannelDataField) : Bool :=
  if isPositionField f then
    m.containsChannelType ChannelType.DelayFrontLeft
      && m.containsChannelType ChannelType.DelayFrontRight
      && m.containsChannelType ChannelType.DelayBackLeft
      && m.containsChannelType ChannelType.DelayBackRight
  else
    match relTimeAux f with
    | some aux =>
        m.containsChannelType aux && m.containsChannelType ChannelType.ScintLeft
    | none =>
        match backingRole f with
        | some r => m.containsChannelType r
        | none => false

/-! ## Concrete instances used by witnesses and counterexamples -/

/-- A channel map containing every role; identifier `n` resolves to nothing. -/
def mapAll : ChannelMap :=
  ⟨fun _ => true, fun _ => none⟩

/-- The empty channel map. -/
def mapNone : ChannelMap :=
  ⟨fun _ => false, fun _ => none⟩

/-- Trivial stand-ins for `atan` and `PI` (the theorems hold for every
`PhysicsFns`, so any instance may witness them). -/
def P0 : PhysicsFns :=
  ⟨fun _ => 0, 0⟩

/-- A channel map containing every role, resolving identifiers 0-5 to the
four delay lines, the left scintillator and the first Cebra detector. -/
def mapDelay : ChannelMap :=
  ⟨fun _ => true, fun u =>
    if u = 0 then some ChannelType.DelayFrontLeft
    else if u = 1 then some ChannelType.DelayFrontRight
    else if u = 2 then some ChannelType.DelayBackLeft
    else if u = 3 then some ChannelType.DelayBackRight
    else if u = 4 then some ChannelType.ScintLeft
    else if u = 5 then some ChannelType.Cebra0
    else none⟩

/-- A two-hit event: front delay-line pair with timestamps 100 and 80. -/
def EV2 : List CompassData :=
  [⟨0, 1, 1, 100⟩, ⟨1, 1, 1, 80⟩]

/-- A four-hit event: both delay-line pairs. -/
def EV4 : List CompassData :=
  [⟨0, 1, 1, 100⟩, ⟨1, 1, 1, 80⟩, ⟨2, 1, 1, 90⟩, ⟨3, 1, 1, 70⟩]

/-- A two-hit event: left scintillator at 50, Cebra detector 0 at 60. -/
def EV5 : List CompassData :=
  [⟨4, 1, 1, 50⟩, ⟨5, 2, 3, 60⟩]

/-- A channel map containing every role, resolving identifier 0 to the
Monitor role. -/
def mapMonitor : ChannelMap :=
  ⟨fun _ => true, fun u => if u = 0 then some ChannelType.Monitor else none⟩

/-! ## Basic lemmas about `setLast` and `setValue` -/

theorem setLast_length (l : List ℚ) (v : ℚ) : (setLast l v).length = l.length := by
  cases l with
  | nil => rfl
  | cons a as => simp [setLast]

theorem setLast_getLast? (l : List ℚ) (v : ℚ) (h : l ≠ []) :
    (setLast l v).getLast? = some v := by
  cases l with
  | nil => exact absurd rfl h
  | cons a as => simp [setLast]

theorem setLast_setLast (l : List ℚ) (v v' : ℚ) :
    setLast (setLast l v) v' = setLast l v' := by
  cases l with
  | nil => rfl
  | cons a as => simp [setLast, List.dropLast_concat]

theorem setValue_rows (d : ChannelData) (f : ChannelDataField) (v : ℚ) :
    (d.setValue f v).rows = d.rows := by
  unfold ChannelData.setValue
  cases d.fields f <;> rfl

theorem setValue_fields_self (d : ChannelData) (f : ChannelDataField) (v : ℚ) :
    (d.setValue f v).fields f = (d.fields f).map fun l => setLast l v := by
  unfold ChannelData.setValue
  cases h : d.fields f with
  | none => simp [h]
  | some l => simp

theorem setValue_fields_ne (d : ChannelData) (f : ChannelDataField) (v : ℚ)
    {g : ChannelDataField} (hg : g ≠ f) :
    (d.setValue f v).fields g = d.fields g := by
  unfold ChannelData.setValue
  cases h : d.fields f with
  | none => rfl
  | some l => simp [hg]

theorem setValue_length (d : ChannelData) (f : ChannelDataField) (v : ℚ)
    (g : ChannelDataField) :
    ((d.setValue f v).fields g).map List.length = (d.fields g).map List.length := by
  by_cases hg : g = f
  · subst hg
    rw [setValue_fields_self]
    cases d.fields g with
    | none => rfl
    | some l => simp [setLast_length]
  · rw [setValue_fields_ne _ _ _ hg]

/-- Shape equivalence: same row counter and same column lengths (columns
present in one are present in the other). -/
def SameShape (d' d : ChannelData) : Prop :=
  d'.rows = d.rows ∧
    ∀ f, (d'.fields f).map List.length = (d.fields f).map List.length

theorem sameShape_refl (d : ChannelData) : SameShape d d :=
  ⟨rfl, fun _ => rfl⟩

theorem sameShape_trans {d₁ d₂ d₃ : ChannelData} (h1 : SameShape d₁ d₂)
    (h2 : SameShape d₂ d₃) : SameShape d₁ d₃ :=
  ⟨h1.1.trans h2.1, fun f => (h1.2 f).trans (h2.2 f)⟩

theorem sameShape_setValue (d : ChannelData) (f : ChannelDataField) (v : ℚ) :
    SameShape (d.setValue f v) d :=
  ⟨setValue_rows d f v, setValue_length d f v⟩

theorem sameShape_ite {c : Prop} [Decidable c] {d₁ d₂ d : ChannelData}
    (h1 : SameShape d₁ d) (h2 : SameShape d₂ d) :
    SameShape (if c then d₁ else d₂) d := by
  split
  · exact h1
  · exact h2

theorem aligned_of_sameShape {d' d : ChannelData} (h : SameShape d' d)
    (hal : Aligned d) : Aligned d' := by
  intro f l hf
  have h2 := h.2 f
  rw [hf] at h2
  cases hd : d.fields f with
  | none =>
      rw [hd] at h2
      simp at h2
  | some l' =>
      rw [hd] at h2
      simp at h2
      rw [h2, h.1]
      exact hal f l' hd

/-! ## Shape preservation through dispatch and physics -/

theorem sameShape_hitFields (map : ChannelMap) (d : ChannelData) (hit : CompassData) :
    SameShape (hitFields map d hit) d := by
  unfold hitFields
  cases map.getChannelData hit.uuid with
  | none => exact sameShape_refl d
  | some ct =>
      dsimp only
      cases roleFields ct with
      | none => exact sameShape_refl d
      | some trip =>
          obtain ⟨fe, fs, ft⟩ := trip
          dsimp only
          exact sameShape_trans (sameShape_setValue _ _ _)
            (sameShape_trans (sameShape_setValue _ _ _) (sameShape_setValue _ _ _))

theorem sameShape_foldl_hitFields (map : ChannelMap) (event : List CompassData) :
    ∀ d, SameShape (event.foldl (hitFields map) d) d := by
  induction event with
  | nil => exact fun d => sameShape_refl d
  | cons x xs ih =>
      intro d
      exact sameShape_trans (ih (hitFields map d x)) (sameShape_hitFields map d x)

theorem sameShape_relTimeStep (a b : ℚ) (f : ChannelDataField) (d : ChannelData) :
    SameShape (relTimeStep a b f d) d := by
  unfold relTimeStep
  exact sameShape_ite (sameShape_setValue _ _ _) (sameShape_refl d)

theorem sameShape_thetaXavg (P : PhysicsFns) (weights : Option (ℚ × ℚ))
    (x1 x2 : ℚ) (d : ChannelData) : SameShape (thetaXavg P weights x1 x2 d) d := by
  unfold thetaXavg
  exact sameShape_ite
    (sameShape_trans (sameShape_setValue _ _ _) (sameShape_setValue _ _ _))
    (sameShape_refl d)

theorem sameShape_physics (P : PhysicsFns) (weights : Option (ℚ × ℚ))
    (t : EventTimes) (d : ChannelData) : SameShape (physics P weights t d) d := by
  simp only [physics]
  refine sameShape_trans (sameShape_relTimeStep _ _ _ _) ?_
  refine sameShape_trans (sameShape_relTimeStep _ _ _ _) ?_
  refine sameShape_trans (sameShape_relTimeStep _ _ _ _) ?_
  refine sameShape_trans (sameShape_relTimeStep _ _ _ _) ?_
  refine sameShape_trans (sameShape_relTimeStep _ _ _ _) ?_
  refine sameShape_trans (sameShape_relTimeStep _ _ _ _) ?_
  refine sameShape_trans (sameShape_relTimeStep _ _ _ _) ?_
  refine sameShape_trans (sameShape_relTimeStep _ _ _ _) ?_
  refine sameShape_trans (sameShape_relTimeStep _ _ _ _) ?_
  refine sameShape_trans (sameShape_thetaXavg _ _ _ _ _) ?_
  refine sameShape_trans (sameShape_ite (sameShape_setValue _ _ _) (sameShape_refl _)) ?_
  exact sameShape_ite (sameShape_setValue _ _ _) (sameShape_refl _)

/-! ## The padding step -/

theorem pushDefaults_rows (d : ChannelData) : d.pushDefaults.rows = d.rows := rfl

theorem bump_pushDefaults_fields {d : ChannelData} (hal : Aligned d)
    (f : ChannelDataField) :
    (({ d with rows := d.rows + 1 } : ChannelData).pushDefaults).fields f =
      (d.fields f).map fun l => l ++ [INVALID_VALUE] := by
  unfold ChannelData.pushDefaults
  cases hf : d.fields f with
  | none => simp [hf]
  | some l =>
      have hlen := hal f l hf
      simp [hf, hlen]

theorem aligned_bump_pushDefaults {d : ChannelData} (hal : Aligned d) :
    Aligned (({ d with rows := d.rows + 1 } : ChannelData).pushDefaults) := by
  intro f l hf
  rw [bump_pushDefaults_fields hal f] at hf
  cases hd : d.fields f with
  | none => rw [hd] at hf; simp at hf
  | some l' =>
      rw [hd] at hf
      simp at hf
      have hlen := hal f l' hd
      rw [pushDefaults_rows]
      simp [← hf, hlen]

/-! ## The dispatch loop -/

theorem foldl_processHit_eq (map : ChannelMap) (event : List CompassData) :
    ∀ dd tt, event.foldl (processHit map) (dd, tt) =
      (event.foldl (hitFields map) dd, event.foldl (hitTimes map) tt) := by
  induction event with
  | nil => intro dd tt; rfl
  | cons x xs ih => intro dd tt; exact ih (hitFields map dd x) (hitTimes map tt x)

theorem appendEvent_eq (d : ChannelData) (P : PhysicsFns)
    (event : List CompassData) (map : ChannelMap) (weights : Option (ℚ × ℚ)) :
    d.appendEvent P event map weights =
      physics P weights (collectTimes map event)
        (event.foldl (hitFields map)
          (({ d with rows := d.rows + 1 } : ChannelData).pushDefaults)) := by
  simp only [ChannelData.appendEvent, foldl_processHit_eq, collectTimes]

theorem ne_of_derived_flag {g f : ChannelDataField} (hg : isDerivedField g = true)
    (hf : isDerivedField f = false) : g ≠ f := by
  intro e
  rw [e, hf] at hg
  cases hg

theorem ne_of_derived_flag' {g f : ChannelDataField} (hg : isDerivedField g = false)
    (hf : isDerivedField f = true) : g ≠ f := by
  intro e
  rw [e, hf] at hg
  cases hg

theorem tripletFields_not_derived :
    ∀ r : ChannelType, ∀ f ∈ tripletFieldsOf r, isDerivedField f = false := by
  decide

theorem tripletFields_nodup : ∀ r : ChannelType, (tripletFieldsOf r).Nodup := by
  decide

theorem tripletFields_disjoint :
    ∀ r r' : ChannelType, r ≠ r' →
      ∀ f ∈ tripletFieldsOf r, f ∉ tripletFieldsOf r' := by
  decide

theorem hitFields_fields_derived (map : ChannelMap) (d : ChannelData)
    (hit : CompassData) {g : ChannelDataField} (hg : isDerivedField g = true) :
    (hitFields map d hit).fields g = d.fields g := by
  unfold hitFields
  cases map.getChannelData hit.uuid with
  | none => rfl
  | some ct =>
      dsimp only
      cases hrf : roleFields ct with
      | none => rfl
      | some trip =>
          obtain ⟨fe, fs, ft⟩ := trip
          dsimp only
          have hmem : ∀ f ∈ tripletFieldsOf ct, isDerivedField f = false :=
            tripletFields_not_derived ct
          have hfe := hmem fe (by simp [tripletFieldsOf, hrf])
          have hfs := hmem fs (by simp [tripletFieldsOf, hrf])
          have hft := hmem ft (by simp [tripletFieldsOf, hrf])
          rw [setValue_fields_ne _ _ _ (ne_of_derived_flag hg hft),
              setValue_fields_ne _ _ _ (ne_of_derived_flag hg hfs),
              setValue_fields_ne _ _ _ (ne_of_derived_flag hg hfe)]

theorem foldl_hitFields_derived (map : ChannelMap) (event : List CompassData)
    {g : ChannelDataField} (hg : isDerivedField g = true) :
    ∀ d, (event.foldl (hitFields map) d).fields g = d.fields g := by
  induction event with
  | nil => intro d; rfl
  | cons x xs ih =>
      intro d
      rw [List.foldl_cons, ih (hitFields map d x), hitFields_fields_derived map d x hg]

/-! ## Field projections of the physics tail -/

theorem ite_setValue_fields_ne {c : Prop} [Decidable c] (d : ChannelData)
    (f : ChannelDataField) (v : ℚ) {g : ChannelDataField} (hg : g ≠ f) :
    (if c then d.setValue f v else d).fields g = d.fields g := by
  split
  · exact setValue_fields_ne _ _ _ hg
  · rfl

theorem relTimeStep_fields_ne (a b : ℚ) (f : ChannelDataField) (d : ChannelData)
    {g : ChannelDataField} (hg : g ≠ f) :
    (relTimeStep a b f d).fields g = d.fields g := by
  unfold relTimeStep
  exact ite_setValue_fields_ne d f _ hg

theorem relTimeStep_fields_self (a b : ℚ) (f : ChannelDataField) (d : ChannelData) :
    (relTimeStep a b f d).fields f =
      if a ≠ INVALID_VALUE ∧ b ≠ INVALID_VALUE then
        (d.fields f).map fun l => setLast l (b - a)
      else d.fields f := by
  unfold relTimeStep
  split
  · exact setValue_fields_self d f _
  · rfl

theorem thetaXavg_fields_ne (P : PhysicsFns) (weights : Option (ℚ × ℚ))
    (x1 x2 : ℚ) (d : ChannelData) {g : ChannelDataField}
    (hth : g ≠ Theta) (hxa : g ≠ Xavg) :
    (thetaXavg P weights x1 x2 d).fields g = d.fields g := by
  unfold thetaXavg
  split
  · rw [setValue_fields_ne _ _ _ hxa, setValue_fields_ne _ _ _ hth]
  · rfl

theorem thetaXavg_fields_theta (P : PhysicsFns) (weights : Option (ℚ × ℚ))
    (x1 x2 : ℚ) (d : ChannelData) :
    (thetaXavg P weights x1 x2 d).fields Theta =
      if x1 ≠ INVALID_VALUE ∧ x2 ≠ INVALID_VALUE then
        (d.fields Theta).map fun l => setLast l (thetaVal P (x2 - x1))
      else d.fields Theta := by
  unfold thetaXavg
  split
  · rw [setValue_fields_ne _ _ _ (by decide : Theta ≠ Xavg), setValue_fields_self]
  · rfl

theorem thetaXavg_fields_xavg (P : PhysicsFns) (weights : Option (ℚ × ℚ))
    (x1 x2 : ℚ) (d : ChannelData) :
    (thetaXavg P weights x1 x2 d).fields Xavg =
      if x1 ≠ INVALID_VALUE ∧ x2 ≠ INVALID_VALUE then
        ((d.setValue Theta (thetaVal P (x2 - x1))).fields Xavg).map fun l =>
          setLast l (xavgVal weights x1 x2)
      else d.fields Xavg := by
  unfold thetaXavg
  split
  · exact setValue_fields_self _ _ _
  · rfl

theorem physics_fields_X1 (P : PhysicsFns) (weights : Option (ℚ × ℚ))
    (t : EventTimes) (d : ChannelData) :
    (physics P weights t d).fields X1 =
      if t.dfr_time ≠ INVALID_VALUE ∧ t.dfl_time ≠ INVALID_VALUE then
        (d.fields X1).map fun l => setLast l (computedX1 t)
      else d.fields X1 := by
  simp only [physics]
  rw [relTimeStep_fields_ne, relTimeStep_fields_ne, relTimeStep_fields_ne,
      relTimeStep_fields_ne, relTimeStep_fields_ne, relTimeStep_fields_ne,
      relTimeStep_fields_ne, relTimeStep_fields_ne, relTimeStep_fields_ne,
      thetaXavg_fields_ne, ite_setValue_fields_ne]
  · split
    · rw [setValue_fields_self]
    · rfl
  all_goals decide

theorem physics_fields_X2 (P : PhysicsFns) (weights : Option (ℚ × ℚ))
    (t : EventTimes) (d : ChannelData) :
    (physics P weights t d).fields X2 =
      if t.dbr_time ≠ INVALID_VALUE ∧ t.dbl_time ≠ INVALID_VALUE then
        (d.fields X2).map fun l => setLast l (computedX2 t)
      else d.fields X2 := by
  simp only [physics]
  rw [relTimeStep_fields_ne, relTimeStep_fields_ne, relTimeStep_fields_ne,
      relTimeStep_fields_ne, relTimeStep_fields_ne, relTimeStep_fields_ne,
      relTimeStep_fields_ne, relTimeStep_fields_ne, relTimeStep_fields_ne,
      thetaXavg_fields_ne]
  · split
    · rw [setValue_fields_self, ite_setValue_fields_ne]
      decide
    · rw [ite_setValue_fields_ne]
      decide
  all_goals decide

theorem physics_fields_theta (P : PhysicsFns) (weights : Option (ℚ × ℚ))
    (t : EventTimes) (d : ChannelData) :
    (physics P weights t d).fields Theta =
      if computedX1 t ≠ INVALID_VALUE ∧ computedX2 t ≠ INVALID_VALUE then
        (d.fields Theta).map fun l =>
          setLast l (thetaVal P (computedX2 t - computedX1 t))
      else d.fields Theta := by
  simp only [physics]
  rw [relTimeStep_fields_ne, relTimeStep_fields_ne, relTimeStep_fields_ne,
      relTimeStep_fields_ne, relTimeStep_fields_ne, relTimeStep_fields_ne,
      relTimeStep_fields_ne, relTimeStep_fields_ne, relTimeStep_fields_ne,
      thetaXavg_fields_theta, ite_setValue_fields_ne, ite_setValue_fields_ne]
  all_goals decide

theorem physics_fields_xavg (P : PhysicsFns) (weights : Option (ℚ × ℚ))
    (t : EventTimes) (d : ChannelData) :
    (physics P weights t d).fields Xavg =
      if computedX1 t ≠ INVALID_VALUE ∧ computedX2 t ≠ INVALID_VALUE then
        (d.fields Xavg).map fun l =>
          setLast l (xavgVal weights (computedX1 t) (computedX2 t))
      else d.fields Xavg := by
  simp only [physics]
  rw [relTimeStep_fields_ne, relTimeStep_fields_ne, relTimeStep_fields_ne,
      relTimeStep_fields_ne, relTimeStep_fields_ne, relTimeStep_fields_ne,
      relTimeStep_fields_ne, relTimeStep_fields_ne, relTimeStep_fields_ne,
      thetaXavg_fields_xavg]
  · split
    · rw [setValue_fields_ne, ite_setValue_fields_ne, ite_setValue_fields_ne]
      all_goals decide
    · rw [ite_setValue_fields_ne, ite_setValue_fields_ne]
      all_goals decide
  all_goals decide

theorem physics_fields_not_derived (P : PhysicsFns) (weights : Option (ℚ × ℚ))
    (t : EventTimes) (d : ChannelData) {g : ChannelDataField}
    (hg : isDerivedField g = false) :
    (physics P weights t d).fields g = d.fields g := by
  have hne : ∀ f : ChannelDataField, isDerivedField f = true → g ≠ f :=
    fun f hf => ne_of_derived_flag' hg hf
  simp only [physics]
  rw [relTimeStep_fields_ne, relTimeStep_fields_ne, relTimeStep_fields_ne,
      relTimeStep_fields_ne, relTimeStep_fields_ne, relTimeStep_fields_ne,
      relTimeStep_fields_ne, relTimeStep_fields_ne, relTimeStep_fields_ne,
      thetaXavg_fields_ne, ite_setValue_fields_ne, ite_setValue_fields_ne]
  all_goals exact hne _ rfl

theorem physics_fields_relTime (P : PhysicsFns) (weights : Option (ℚ × ℚ))
    (t : EventTimes) (d : ChannelData) (n : Fin 9) :
    (physics P weights t d).fields (cebraRelField n) =
      if t.scint_left_time ≠ INVALID_VALUE ∧ cebraTimeOf t n ≠ INVALID_VALUE then
        (d.fields (cebraRelField n)).map fun l =>
          setLast l (cebraTimeOf t n - t.scint_left_time)
      else d.fields (cebraRelField n) := by
  fin_cases n <;>
    simp [cebraRelField, cebraTimeOf, physics, relTimeStep_fields_self,
      relTimeStep_fields_ne, thetaXavg_fields_ne, ite_setValue_fields_ne]

/-! ## Last-hit-wins characterization of the dispatch loop -/

theorem hitFields_fields_other (map : ChannelMap) (d : ChannelData) (x : CompassData)
    {r : ChannelType} {g : ChannelDataField} (hgr : g ∈ tripletFieldsOf r)
    (hx : map.getChannelData x.uuid ≠ some r) :
    (hitFields map d x).fields g = d.fields g := by
  unfold hitFields
  cases hct : map.getChannelData x.uuid with
  | none => rfl
  | some ct =>
      dsimp only
      cases hrf : roleFields ct with
      | none => rfl
      | some trip =>
          obtain ⟨fe', fs', ft'⟩ := trip
          dsimp only
          have hner : r ≠ ct := by
            intro e
            rw [hct, ← e] at hx
            exact hx rfl
          have hdis := tripletFields_disjoint r ct hner g hgr
          have h1 : g ≠ fe' := by
            intro e
            exact hdis (by simp [tripletFieldsOf, hrf, e])
          have h2 : g ≠ fs' := by
            intro e
            exact hdis (by simp [tripletFieldsOf, hrf, e])
          have h3 : g ≠ ft' := by
            intro e
            exact hdis (by simp [tripletFieldsOf, hrf, e])
          rw [setValue_fields_ne _ _ _ h3, setValue_fields_ne _ _ _ h2,
              setValue_fields_ne _ _ _ h1]

theorem hitFields_fields_match (map : ChannelMap) (d : ChannelData) (x : CompassData)
    {r : ChannelType} {fe fs ft : ChannelDataField}
    (hr : roleFields r = some (fe, fs, ft))
    (hx : map.getChannelData x.uuid = some r) :
    ((hitFields map d x).fields fe = (d.fields fe).map fun l => setLast l x.energy) ∧
    ((hitFields map d x).fields fs =
      (d.fields fs).map fun l => setLast l x.energy_short) ∧
    ((hitFields map d x).fields ft =
      (d.fields ft).map fun l => setLast l x.timestamp) := by
  have hnd := tripletFields_nodup r
  simp only [tripletFieldsOf, hr] at hnd
  simp only [List.nodup_cons, List.mem_cons, List.mem_singleton, List.not_mem_nil,
    or_false, not_or, List.nodup_nil, and_true] at hnd
  obtain ⟨⟨hfefs, hfeft⟩, hfsft, -⟩ := hnd
  unfold hitFields
  rw [hx]
  dsimp only
  rw [hr]
  dsimp only
  refine ⟨?_, ?_, ?_⟩
  · rw [setValue_fields_ne _ _ _ hfeft, setValue_fields_ne _ _ _ hfefs,
        setValue_fields_self]
  · rw [setValue_fields_ne _ _ _ hfsft, setValue_fields_self,
        setValue_fields_ne _ _ _ (Ne.symm hfefs)]
  · rw [setValue_fields_self, setValue_fields_ne _ _ _ (Ne.symm hfsft),
        setValue_fields_ne _ _ _ (Ne.symm hfeft)]

theorem foldl_hitFields_write (map : ChannelMap) (r : ChannelType)
    (g : ChannelDataField) (v : CompassData → ℚ)
    (hstep : ∀ d x, map.getChannelData x.uuid = some r →
      (hitFields map d x).fields g = (d.fields g).map fun l => setLast l (v x))
    (hother : ∀ d x, map.getChannelData x.uuid ≠ some r →
      (hitFields map d x).fields g = d.fields g) :
    ∀ (event : List CompassData) (d : ChannelData),
      (event.foldl (hitFields map) d).fields g =
        match (hitsForRole map event r).getLast? with
        | none => d.fields g
        | some h => (d.fields g).map fun l => setLast l (v h) := by
  intro event
  induction event using List.reverseRecOn with
  | nil => intro d; rfl
  | append_singleton xs x ih =>
      intro d
      rw [List.foldl_append, List.foldl_cons, List.foldl_nil]
      by_cases hx : map.getChannelData x.uuid = some r
      · rw [hstep _ x hx, ih d]
        have hsplit : hitsForRole map (xs ++ [x]) r = hitsForRole map xs r ++ [x] := by
          simp [hitsForRole, List.filter_append, hx]
        rw [hsplit, List.getLast?_concat]
        cases hys : (hitsForRole map xs r).getLast? with
        | none => rfl
        | some h => cases d.fields g <;> simp [setLast_setLast]
      · rw [hother _ x hx, ih d]
        have hsplit : hitsForRole map (xs ++ [x]) r = hitsForRole map xs r := by
          simp [hitsForRole, List.filter_append, hx]
        rw [hsplit]

theorem foldl_hitFields_energy (map : ChannelMap) {r : ChannelType}
    {fe fs ft : ChannelDataField} (hr : roleFields r = some (fe, fs, ft)) :
    ∀ (event : List CompassData) (d : ChannelData),
      (event.foldl (hitFields map) d).fields fe =
        match (hitsForRole map event r).getLast? with
        | none => d.fields fe
        | some h => (d.fields fe).map fun l => setLast l h.energy :=
  foldl_hitFields_write map r fe (fun h => h.energy)
    (fun d x hx => (hitFields_fields_match map d x hr hx).1)
    (fun d x hx =>
      hitFields_fields_other map d x (by simp [tripletFieldsOf, hr]) hx)

theorem foldl_hitFields_short (map : ChannelMap) {r : ChannelType}
    {fe fs ft : ChannelDataField} (hr : roleFields r = some (fe, fs, ft)) :
    ∀ (event : List CompassData) (d : ChannelData),
      (event.foldl (hitFields map) d).fields fs =
        match (hitsForRole map event r).getLast? with
        | none => d.fields fs
        | some h => (d.fields fs).map fun l => setLast l h.energy_short :=
  foldl_hitFields_write map r fs (fun h => h.energy_short)
    (fun d x hx => (hitFields_fields_match map d x hr hx).2.1)
    (fun d x hx =>
      hitFields_fields_other map d x (by simp [tripletFieldsOf, hr]) hx)

theorem foldl_hitFields_time (map : ChannelMap) {r : ChannelType}
    {fe fs ft : ChannelDataField} (hr : roleFields r = some (fe, fs, ft)) :
    ∀ (event : List CompassData) (d : ChannelData),
      (event.foldl (hitFields map) d).fields ft =
        match (hitsForRole map event r).getLast? with
        | none => d.fields ft
        | some h => (d.fields ft).map fun l => setLast l h.timestamp :=
  foldl_hitFields_write map r ft (fun h => h.timestamp)
    (fun d x hx => (hitFields_fields_match map d x hr hx).2.2)
    (fun d x hx =>
      hitFields_fields_other map d x (by simp [tripletFieldsOf, hr]) hx)

/-! ## Builder-level support lemmas -/

theorem new_aligned (m : ChannelMap) : Aligned (ChannelData.new m) := by
  intro f l h
  unfold ChannelData.new at h
  dsimp only at h
  split at h
  · injection h with h'
    subst h'
    rfl
  · cases h

theorem appendEvent_rows (d : ChannelData) (P : PhysicsFns)
    (event : List CompassData) (map : ChannelMap) (weights : Option (ℚ × ℚ)) :
    (d.appendEvent P event map weights).rows = d.rows + 1 := by
  rw [appendEvent_eq]
  rw [(sameShape_physics P weights (collectTimes map event) _).1]
  rw [(sameShape_foldl_hitFields map event _).1]
  rfl

theorem aligned_appendEvent {d : ChannelData} (hal : Aligned d) (P : PhysicsFns)
    (event : List CompassData) (map : ChannelMap) (weights : Option (ℚ × ℚ)) :
    Aligned (d.appendEvent P event map weights) := by
  rw [appendEvent_eq]
  exact aligned_of_sameShape
    (sameShape_trans (sameShape_physics P weights (collectTimes map event) _)
      (sameShape_foldl_hitFields map event _))
    (aligned_bump_pushDefaults hal)

theorem dispatched_pad_fields {d : ChannelData} (hal : Aligned d)
    (map : ChannelMap) (event : List CompassData) (g : ChannelDataField)
    (hg : isDerivedField g = true) :
    (event.foldl (hitFields map)
        (({ d with rows := d.rows + 1 } : ChannelData).pushDefaults)).fields g =
      (d.fields g).map fun l => l ++ [INVALID_VALUE] := by
  rw [foldl_hitFields_derived map event hg, bump_pushDefaults_fields hal g]

theorem getLast?_setLast_concat (l : List ℚ) (a v : ℚ) :
    (setLast (l ++ [a]) v).getLast? = some v :=
  setLast_getLast? _ v (by simp)

theorem cebraRelField_derived : ∀ n : Fin 9, isDerivedField (cebraRelField n) = true := by
  decide

/-! ## Claim theorems -/

/-- C1: for every builder constructed from a channel map, after any sequence
of `append_event` calls (arbitrary events, maps, weights and physics
functions per call), every column's length equals the row counter. -/
theorem append_events_column_alignment (m : ChannelMap) (calls : List AppendCall) :
    ∀ f l, (runAppends (ChannelData.new m) calls).fields f = some l →
      l.length = (runAppends (ChannelData.new m) calls).rows := by
  have key : ∀ d : ChannelData, Aligned d → Aligned (runAppends d calls) := by
    induction calls with
    | nil => exact fun d h => h
    | cons c cs ih =>
        exact fun d h => ih _ (aligned_appendEvent h c.1 c.2.1 c.2.2.1 c.2.2.2)
  exact key (ChannelData.new m) (new_aligned m)

/-- Witness for C1 at a concrete map and a single empty-event append. -/
theorem append_events_column_alignment_witness :
    (runAppends (ChannelData.new mapAll) [(P0, [], mapAll, none)]).fields X1 =
        some [INVALID_VALUE] ∧
    ([INVALID_VALUE] : List ℚ).length =
        (runAppends (ChannelData.new mapAll) [(P0, [], mapAll, none)]).rows :=
  ⟨by decide,
   append_events_column_alignment mapAll [(P0, [], mapAll, none)] X1
     [INVALID_VALUE] (by decide)⟩

theorem mem_getFieldVec : ∀ f : ChannelDataField, f ∈ getFieldVec := by
  decide

theorem fieldIncluded_eq_spec (m : ChannelMap) :
    ∀ f, fieldIncluded m f = specFieldIncluded m f := by
  intro f
  cases f <;> rfl

/-- C2: the filtered field list is a sublist (subsequence, in declaration
order) of the full field list, and membership is exactly the spec's
field-by-field selection rule. -/
theorem filtered_field_vec_correct (m : ChannelMap) :
    (getFilteredFieldVec m).Sublist getFieldVec ∧
    ∀ f, f ∈ getFilteredFieldVec m ↔ specFieldIncluded m f = true := by
  constructor
  · exact List.filter_sublist _
  · intro f
    simp [getFilteredFieldVec, List.mem_filter, mem_getFieldVec f,
      fieldIncluded_eq_spec m f]

/-- Witness for C2 at a concrete map and field. -/
theorem filtered_field_vec_correct_witness :
    (getFilteredFieldVec mapAll).Sublist getFieldVec ∧
    (X1 ∈ getFilteredFieldVec mapAll ↔ specFieldIncluded mapAll X1 = true) :=
  ⟨(filtered_field_vec_correct mapAll).1, (filtered_field_vec_correct mapAll).2 X1⟩

/-- C7: appending an event with zero hits appends exactly one row, and every
column of the schema gains one sentinel entry (all other entries kept). -/
theorem append_event_empty (P : PhysicsFns) (d : ChannelData) (map : ChannelMap)
    (weights : Option (ℚ × ℚ)) (hal : Aligned d) :
    (d.appendEvent P [] map weights).rows = d.rows + 1 ∧
    ∀ f, (d.appendEvent P [] map weights).fields f =
      (d.fields f).map fun l => l ++ [INVALID_VALUE] := by
  refine ⟨appendEvent_rows d P [] map weights, ?_⟩
  intro f
  rw [appendEvent_eq]
  have hphys : ∀ dd, physics P weights (collectTimes map []) dd = dd := by
    intro dd
    simp [collectTimes, physics, computedX1, computedX2, thetaXavg, relTimeStep,
      initTimes]
  rw [hphys, List.foldl_nil]
  exact bump_pushDefaults_fields hal f

/-- Witness for C7: an empty event on a fresh full-schema builder yields one
all-sentinel row. -/
theorem append_event_empty_witness :
    ((ChannelData.new mapAll).appendEvent P0 [] mapAll none).rows = 0 + 1 ∧
    ((ChannelData.new mapAll).appendEvent P0 [] mapAll none).fields X1 =
      ((ChannelData.new mapAll).fields X1).map fun l => l ++ [INVALID_VALUE] :=
  ⟨(append_event_empty P0 (ChannelData.new mapAll) mapAll none
      (new_aligned mapAll)).1,
   (append_event_empty P0 (ChannelData.new mapAll) mapAll none
      (new_aligned mapAll)).2 X1⟩

/-- C8: a hit whose channel identifier the map cannot resolve leaves the
whole append result identical to the same event with that hit removed. -/
theorem append_event_unresolved (P : PhysicsFns) (d : ChannelData)
    (map : ChannelMap) (weights : Option (ℚ × ℚ)) (ev1 ev2 : List CompassData)
    (hit : CompassData) (h : map.getChannelData hit.uuid = none) :
    d.appendEvent P (ev1 ++ hit :: ev2) map weights =
      d.appendEvent P (ev1 ++ ev2) map weights := by
  have hstep : ∀ st : ChannelData × EventTimes, processHit map st hit = st := by
    intro st
    simp [processHit, hitFields, hitTimes, h]
  simp only [ChannelData.appendEvent]
  rw [List.foldl_append, List.foldl_cons, hstep, ← List.foldl_append]

/-- Witness for C8 at a concrete map, builder, and unresolved hit. -/
theorem append_event_unresolved_witness :
    (ChannelData.new mapAll).appendEvent P0 ([] ++ ⟨42, 1, 2, 3⟩ :: []) mapAll none =
      (ChannelData.new mapAll).appendEvent P0 ([] ++ []) mapAll none :=
  append_event_unresolved P0 (ChannelData.new mapAll) mapAll none [] []
    ⟨42, 1, 2, 3⟩ (by decide)

/-- C9: `set_value` is a silent no-op both on a field absent from the schema
and on a present field whose column is empty; together with the totality of
every operation modelled here this is the claimed panic-freedom. -/
theorem set_value_noop_safety :
    (∀ (d : ChannelData) (f : ChannelDataField) (v : ℚ),
        d.fields f = none → d.setValue f v = d) ∧
    (∀ (d : ChannelData) (f : ChannelDataField) (v : ℚ),
        d.fields f = some [] → d.setValue f v = d) := by
  constructor
  · intro d f v h
    unfold ChannelData.setValue
    rw [h]
  · intro d f v h
    cases d with
    | mk fl rows =>
        dsimp only at h
        unfold ChannelData.setValue
        dsimp only
        rw [h]
        dsimp only
        congr 1
        funext g
        by_cases hg : g = f
        · subst hg
          simp [setLast, h]
        · simp [hg]

/-- Witness for C9: both no-op cases at concrete inputs. -/
theorem set_value_noop_safety_witness :
    (ChannelData.new mapNone).setValue X1 5 = ChannelData.new mapNone ∧
    (ChannelData.new mapAll).setValue X1 5 = ChannelData.new mapAll :=
  ⟨set_value_noop_safety.1 (ChannelData.new mapNone) X1 5 (by decide),
   set_value_noop_safety.2 (ChannelData.new mapAll) X1 5 (by decide)⟩

/-- C3: the new row's X1 slot equals `(dfl - dfr) * 0.5 / 2.1` exactly when
both front delay-line timestamps were captured (valid) this event, and stays
at the sentinel otherwise; X2 likewise with `(dbl - dbr) * 0.5 / 1.98` for
the back pair. -/
theorem append_event_x1_x2 (P : PhysicsFns) (d : ChannelData)
    (event : List CompassData) (map : ChannelMap) (weights : Option (ℚ × ℚ))
    (hal : Aligned d) (h1 : (d.fields X1).isSome) (h2 : (d.fields X2).isSome) :
    lastVal (d.appendEvent P event map weights) X1 =
      some (if (collectTimes map event).dfr_time ≠ INVALID_VALUE ∧
               (collectTimes map event).dfl_time ≠ INVALID_VALUE then
              ((collectTimes map event).dfl_time -
                (collectTimes map event).dfr_time) * 0.5 / 2.1
            else INVALID_VALUE) ∧
    lastVal (d.appendEvent P event map weights) X2 =
      some (if (collectTimes map event).dbr_time ≠ INVALID_VALUE ∧
               (collectTimes map event).dbl_time ≠ INVALID_VALUE then
              ((collectTimes map event).dbl_time -
                (collectTimes map event).dbr_time) * 0.5 / 1.98
            else INVALID_VALUE) := by
  obtain ⟨l1, hl1⟩ := Option.isSome_iff_exists.mp h1
  obtain ⟨l2, hl2⟩ := Option.isSome_iff_exists.mp h2
  constructor
  · unfold lastVal
    rw [appendEvent_eq, physics_fields_X1,
      dispatched_pad_fields hal map event X1 rfl, hl1]
    by_cases hc : (collectTimes map event).dfr_time ≠ INVALID_VALUE ∧
        (collectTimes map event).dfl_time ≠ INVALID_VALUE
    · rw [if_pos hc, if_pos hc]
      simp [computedX1, hc, setLast_getLast?]
      norm_num
    · rw [if_neg hc, if_neg hc]
      simp [List.getLast?_concat]
  · unfold lastVal
    rw [appendEvent_eq, physics_fields_X2,
      dispatched_pad_fields hal map event X2 rfl, hl2]
    by_cases hc : (collectTimes map event).dbr_time ≠ INVALID_VALUE ∧
        (collectTimes map event).dbl_time ≠ INVALID_VALUE
    · rw [if_pos hc, if_pos hc]
      simp [computedX2, hc, setLast_getLast?]
      norm_num
    · rw [if_neg hc, if_neg hc]
      simp [List.getLast?_concat]

/-- Witness for C3: front pair fired with timestamps 100 and 80, back pair
absent. -/
theorem append_event_x1_x2_witness :
    lastVal ((ChannelData.new mapDelay).appendEvent P0 EV2 mapDelay none) X1 =
      some ((100 - 80) * 0.5 / 2.1) ∧
    lastVal ((ChannelData.new mapDelay).appendEvent P0 EV2 mapDelay none) X2 =
      some INVALID_VALUE := by
  have h := append_event_x1_x2 P0 (ChannelData.new mapDelay) EV2 mapDelay none
    (new_aligned mapDelay) (by decide) (by decide)
  have hT : collectTimes mapDelay EV2 =
      ⟨100, 80, INVALID_VALUE, INVALID_VALUE, INVALID_VALUE, INVALID_VALUE,
       INVALID_VALUE, INVALID_VALUE, INVALID_VALUE, INVALID_VALUE, INVALID_VALUE,
       INVALID_VALUE, INVALID_VALUE, INVALID_VALUE⟩ := rfl
  refine ⟨h.1.trans ?_, h.2.trans ?_⟩
  · rw [hT]
    norm_num [INVALID_VALUE]
  · rw [hT]
    norm_num [INVALID_VALUE]

/-- C4: when both X1 and X2 were computed (not sentinel), Theta is written
from the sign of `diff = X2 - X1` (`atan(diff/36)`, `PI + atan(diff/36)`, or
exactly `PI/2`), Xavg is `w0*X1 + w1*X2` when weights are supplied and is
explicitly masked to the sentinel when they are absent; when X1 or X2 is
unavailable, neither Theta nor Xavg is written. -/
theorem append_event_theta_xavg (P : PhysicsFns) (d : ChannelData)
    (event : List CompassData) (map : ChannelMap) (weights : Option (ℚ × ℚ))
    (hal : Aligned d) (hTh : (d.fields Theta).isSome)
    (hXa : (d.fields Xavg).isSome) :
    (computedX1 (collectTimes map event) ≠ INVALID_VALUE ∧
        computedX2 (collectTimes map event) ≠ INVALID_VALUE →
      (lastVal (d.appendEvent P event map weights) Theta =
        some (if computedX2 (collectTimes map event) -
                  computedX1 (collectTimes map event) > 0 then
                P.atan ((computedX2 (collectTimes map event) -
                  computedX1 (collectTimes map event)) / 36.0)
              else if computedX2 (collectTimes map event) -
                  computedX1 (collectTimes map event) < 0 then
                P.pi + P.atan ((computedX2 (collectTimes map event) -
                  computedX1 (collectTimes map event)) / 36.0)
              else P.pi * 0.5)) ∧
      (∀ w0 w1, weights = some (w0, w1) →
        lastVal (d.appendEvent P event map weights) Xavg =
          some (w0 * computedX1 (collectTimes map event) +
            w1 * computedX2 (collectTimes map event))) ∧
      (weights = none →
        lastVal (d.appendEvent P event map weights) Xavg =
          some INVALID_VALUE)) ∧
    (¬(computedX1 (collectTimes map event) ≠ INVALID_VALUE ∧
        computedX2 (collectTimes map event) ≠ INVALID_VALUE) →
      lastVal (d.appendEvent P event map weights) Theta = some INVALID_VALUE ∧
      lastVal (d.appendEvent P event map weights) Xavg = some INVALID_VALUE) := by
  obtain ⟨lTh, hlTh⟩ := Option.isSome_iff_exists.mp hTh
  obtain ⟨lXa, hlXa⟩ := Option.isSome_iff_exists.mp hXa
  constructor
  · intro hcomp
    refine ⟨?_, ?_, ?_⟩
    · unfold lastVal
      rw [appendEvent_eq, physics_fields_theta,
        dispatched_pad_fields hal map event Theta rfl, hlTh, if_pos hcomp]
      simp [setLast_getLast?, thetaVal]
    · intro w0 w1 hw
      unfold lastVal
      rw [appendEvent_eq, physics_fields_xavg,
        dispatched_pad_fields hal map event Xavg rfl, hlXa, if_pos hcomp]
      simp [setLast_getLast?, xavgVal, hw]
    · intro hw
      unfold lastVal
      rw [appendEvent_eq, physics_fields_xavg,
        dispatched_pad_fields hal map event Xavg rfl, hlXa, if_pos hcomp]
      simp [setLast_getLast?, xavgVal, hw]
  · intro hcomp
    constructor
    · unfold lastVal
      rw [appendEvent_eq, physics_fields_theta,
        dispatched_pad_fields hal map event Theta rfl, hlTh, if_neg hcomp]
      simp [List.getLast?_concat]
    · unfold lastVal
      rw [appendEvent_eq, physics_fields_xavg,
        dispatched_pad_fields hal map event Xavg rfl, hlXa, if_neg hcomp]
      simp [List.getLast?_concat]

/-- Witness for C4: both pairs fired (diff > 0), no weights: Theta gets the
atan branch (0 under `P0`), Xavg is masked with the sentinel. -/
theorem append_event_theta_xavg_witness :
    lastVal ((ChannelData.new mapDelay).appendEvent P0 EV4 mapDelay none) Theta =
      some 0 ∧
    lastVal ((ChannelData.new mapDelay).appendEvent P0 EV4 mapDelay none) Xavg =
      some INVALID_VALUE := by
  have h := append_event_theta_xavg P0 (ChannelData.new mapDelay) EV4 mapDelay
    none (new_aligned mapDelay) (by decide) (by decide)
  have hT : collectTimes mapDelay EV4 =
      ⟨100, 80, 90, 70, INVALID_VALUE, INVALID_VALUE, INVALID_VALUE,
       INVALID_VALUE, INVALID_VALUE, INVALID_VALUE, INVALID_VALUE, INVALID_VALUE,
       INVALID_VALUE, INVALID_VALUE⟩ := rfl
  have hcomp : computedX1 (collectTimes mapDelay EV4) ≠ INVALID_VALUE ∧
      computedX2 (collectTimes mapDelay EV4) ≠ INVALID_VALUE := by
    rw [hT]
    norm_num [computedX1, computedX2, INVALID_VALUE]
  obtain ⟨hth, -, hxa⟩ := h.1 hcomp
  refine ⟨hth.trans ?_, hxa rfl⟩
  rw [hT]
  norm_num [computedX1, computedX2, INVALID_VALUE, P0]

/-- C5: each of the nine Cebra relative-time slots equals
`cebraN_time - scint_left_time` exactly when both timestamps were captured
(valid) this event, and stays at the sentinel otherwise. -/
theorem append_event_cebra_rel_times (P : PhysicsFns) (d : ChannelData)
    (event : List CompassData) (map : ChannelMap) (weights : Option (ℚ × ℚ))
    (hal : Aligned d)
    (hrel : ∀ n : Fin 9, (d.fields (cebraRelField n)).isSome) :
    ∀ n : Fin 9, lastVal (d.appendEvent P event map weights) (cebraRelField n) =
      some (if (collectTimes map event).scint_left_time ≠ INVALID_VALUE ∧
               cebraTimeOf (collectTimes map event) n ≠ INVALID_VALUE then
              cebraTimeOf (collectTimes map event) n -
                (collectTimes map event).scint_left_time
            else INVALID_VALUE) := by
  intro n
  obtain ⟨l, hl⟩ := Option.isSome_iff_exists.mp (hrel n)
  unfold lastVal
  rw [appendEvent_eq, physics_fields_relTime,
    dispatched_pad_fields hal map event (cebraRelField n) (cebraRelField_derived n),
    hl]
  by_cases hc : (collectTimes map event).scint_left_time ≠ INVALID_VALUE ∧
      cebraTimeOf (collectTimes map event) n ≠ INVALID_VALUE
  · rw [if_pos hc, if_pos hc]
    simp [setLast_getLast?]
  · rw [if_neg hc, if_neg hc]
    simp [List.getLast?_concat]

/-- Witness for C5: scintillator at 50 and Cebra0 at 60 give relative time
10 in slot 0; slot 1 stays at the sentinel. -/
theorem append_event_cebra_rel_times_witness :
    lastVal ((ChannelData.new mapDelay).appendEvent P0 EV5 mapDelay none)
        (cebraRelField 0) = some (60 - 50) ∧
    lastVal ((ChannelData.new mapDelay).appendEvent P0 EV5 mapDelay none)
        (cebraRelField 1) = some INVALID_VALUE := by
  have h := append_event_cebra_rel_times P0 (ChannelData.new mapDelay) EV5
    mapDelay none (new_aligned mapDelay) (by decide)
  have hT : collectTimes mapDelay EV5 =
      ⟨INVALID_VALUE, INVALID_VALUE, INVALID_VALUE, INVALID_VALUE, 50, 60,
       INVALID_VALUE, INVALID_VALUE, INVALID_VALUE, INVALID_VALUE, INVALID_VALUE,
       INVALID_VALUE, INVALID_VALUE, INVALID_VALUE⟩ := rfl
  refine ⟨(h 0).trans ?_, (h 1).trans ?_⟩
  · rw [hT]
    norm_num [cebraTimeOf, INVALID_VALUE]
  · rw [hT]
    norm_num [cebraTimeOf, INVALID_VALUE]

/-- C6 counterexample: a hit resolving to the Monitor role — a known role
whose fields are in the catalog — does NOT overwrite the Monitor columns:
the dispatch `match` has no Monitor arm, so the hit falls into the wildcard
`continue` and the just-appended MonitorEnergy slot keeps the sentinel
instead of the hit's energy 5. -/
theorem append_event_monitor_counterexample :
    mapMonitor.getChannelData 0 = some ChannelType.Monitor ∧
    (ChannelData.new mapMonitor).fields MonitorEnergy = some [] ∧
    lastVal ((ChannelData.new mapMonitor).appendEvent P0 [⟨0, 5, 6, 7⟩]
        mapMonitor none) MonitorEnergy ≠ some 5 :=
  ⟨rfl, by decide, by decide⟩

/-- C6 (amended): every hit resolving to a known role OTHER THAN Monitor
overwrites the just-appended slot of its role's Energy/Short/Time columns
with the hit's energy, short energy and timestamp, and when several hits of
one event map to the same role the last one in event order wins; hits
resolving to Monitor are silently dropped by the wildcard arm. -/
theorem append_event_dispatch_last_hit (P : PhysicsFns) (d : ChannelData)
    (event : List CompassData) (map : ChannelMap) (weights : Option (ℚ × ℚ))
    (r : ChannelType) (fe fs ft : ChannelDataField) (hit : CompassData)
    (hal : Aligned d) (hr : roleFields r = some (fe, fs, ft))
    (hfe : (d.fields fe).isSome) (hfs : (d.fields fs).isSome)
    (hft : (d.fields ft).isSome)
    (hlast : (hitsForRole map event r).getLast? = some hit) :
    lastVal (d.appendEvent P event map weights) fe = some hit.energy ∧
    lastVal (d.appendEvent P event map weights) fs = some hit.energy_short ∧
    lastVal (d.appendEvent P event map weights) ft = some hit.timestamp := by
  obtain ⟨le, hle⟩ := Option.isSome_iff_exists.mp hfe
  obtain ⟨ls, hls⟩ := Option.isSome_iff_exists.mp hfs
  obtain ⟨lt, hlt⟩ := Option.isSome_iff_exists.mp hft
  have hmem : ∀ f ∈ tripletFieldsOf r, isDerivedField f = false :=
    tripletFields_not_derived r
  have hfe' : isDerivedField fe = false := hmem fe (by simp [tripletFieldsOf, hr])
  have hfs' : isDerivedField fs = false := hmem fs (by simp [tripletFieldsOf, hr])
  have hft' : isDerivedField ft = false := hmem ft (by simp [tripletFieldsOf, hr])
  refine ⟨?_, ?_, ?_⟩
  · unfold lastVal
    rw [appendEvent_eq, physics_fields_not_derived _ _ _ _ hfe',
      foldl_hitFields_energy map hr, hlast]
    dsimp only
    rw [bump_pushDefaults_fields hal fe, hle]
    simp [setLast_getLast?]
  · unfold lastVal
    rw [appendEvent_eq, physics_fields_not_derived _ _ _ _ hfs',
      foldl_hitFields_short map hr, hlast]
    dsimp only
    rw [bump_pushDefaults_fields hal fs, hls]
    simp [setLast_getLast?]
  · unfold lastVal
    rw [appendEvent_eq, physics_fields_not_derived _ _ _ _ hft',
      foldl_hitFields_time map hr, hlast]
    dsimp only
    rw [bump_pushDefaults_fields hal ft, hlt]
    simp [setLast_getLast?]

/-- Witness for the amended C6: the front-left delay hit of `EV2` lands in
the three DelayFrontLeft columns. -/
theorem append_event_dispatch_last_hit_witness :
    lastVal ((ChannelData.new mapDelay).appendEvent P0 EV2 mapDelay none)
        DelayFrontLeftEnergy = some 1 ∧
    lastVal ((ChannelData.new mapDelay).appendEvent P0 EV2 mapDelay none)
        DelayFrontLeftShort = some 1 ∧
    lastVal ((ChannelData.new mapDelay).appendEvent P0 EV2 mapDelay none)
        DelayFrontLeftTime = some 100 :=
  append_event_dispatch_last_hit P0 (ChannelData.new mapDelay) EV2 mapDelay none
    ChannelType.DelayFrontLeft DelayFrontLeftEnergy DelayFrontLeftShort
    DelayFrontLeftTime ⟨0, 1, 1, 100⟩ (new_aligned mapDelay) rfl
    (by decide) (by decide) (by decide) (by decide)

/-- C10: presence is decided by comparing values with the sentinel, not by
an observed flag.  (a) the dispatch copies the last matching hit's timestamp
into the Time column unconditionally — in particular a timestamp equal to the
sentinel is still written; (b) a captured delay-line/scintillator/Cebra local
equal to the sentinel makes the corresponding derived quantity stay at the
sentinel (treated as unobserved); (c) if the computed X1 or X2 value itself
equals the sentinel, Theta and Xavg stay at the sentinel even when both
delay-line pairs fired. -/
theorem sentinel_presence_semantics (P : PhysicsFns) (d : ChannelData)
    (event : List CompassData) (map : ChannelMap) (weights : Option (ℚ × ℚ))
    (r : ChannelType) (fe fs ft : ChannelDataField) (hit : CompassData)
    (hal : Aligned d) (hr : roleFields r = some (fe, fs, ft))
    (hft : (d.fields ft).isSome) (hX1 : (d.fields X1).isSome)
    (hX2 : (d.fields X2).isSome) (hTh : (d.fields Theta).isSome)
    (hXa : (d.fields Xavg).isSome)
    (hrel : ∀ n : Fin 9, (d.fields (cebraRelField n)).isSome) :
    ((hitsForRole map event r).getLast? = some hit →
      lastVal (d.appendEvent P event map weights) ft = some hit.timestamp) ∧
    ((collectTimes map event).dfl_time = INVALID_VALUE ∨
        (collectTimes map event).dfr_time = INVALID_VALUE →
      lastVal (d.appendEvent P event map weights) X1 = some INVALID_VALUE) ∧
    ((collectTimes map event).dbl_time = INVALID_VALUE ∨
        (collectTimes map event).dbr_time = INVALID_VALUE →
      lastVal (d.appendEvent P event map weights) X2 = some INVALID_VALUE) ∧
    (∀ n : Fin 9,
      (collectTimes map event).scint_left_time = INVALID_VALUE ∨
        cebraTimeOf (collectTimes map event) n = INVALID_VALUE →
      lastVal (d.appendEvent P event map weights) (cebraRelField n) =
        some INVALID_VALUE) ∧
    (computedX1 (collectTimes map event) = INVALID_VALUE ∨
        computedX2 (collectTimes map event) = INVALID_VALUE →
      lastVal (d.appendEvent P event map weights) Theta = some INVALID_VALUE ∧
      lastVal (d.appendEvent P event map weights) Xavg = some INVALID_VALUE) := by
  obtain ⟨lt, hlt⟩ := Option.isSome_iff_exists.mp hft
  obtain ⟨l1, hl1⟩ := Option.isSome_iff_exists.mp hX1
  obtain ⟨l2, hl2⟩ := Option.isSome_iff_exists.mp hX2
  obtain ⟨lTh, hlTh⟩ := Option.isSome_iff_exists.mp hTh
  obtain ⟨lXa, hlXa⟩ := Option.isSome_iff_exists.mp hXa
  refine ⟨?_, ?_, ?_, ?_, ?_⟩
  · intro hlast
    have hft' : isDerivedField ft = false :=
      tripletFields_not_derived r ft (by simp [tripletFieldsOf, hr])
    unfold lastVal
    rw [appendEvent_eq, physics_fields_not_derived _ _ _ _ hft',
      foldl_hitFields_time map hr, hlast]
    dsimp only
    rw [bump_pushDefaults_fields hal ft, hlt]
    simp [setLast_getLast?]
  · intro hinv
    have hc : ¬((collectTimes map event).dfr_time ≠ INVALID_VALUE ∧
        (collectTimes map event).dfl_time ≠ INVALID_VALUE) := by
      rcases hinv with h | h <;> simp [h]
    unfold lastVal
    rw [appendEvent_eq, physics_fields_X1,
      dispatched_pad_fields hal map event X1 rfl, hl1, if_neg hc]
    simp [List.getLast?_concat]
  · intro hinv
    have hc : ¬((collectTimes map event).dbr_time ≠ INVALID_VALUE ∧
        (collectTimes map event).dbl_time ≠ INVALID_VALUE) := by
      rcases hinv with h | h <;> simp [h]
    unfold lastVal
    rw [appendEvent_eq, physics_fields_X2,
      dispatched_pad_fields hal map event X2 rfl, hl2, if_neg hc]
    simp [List.getLast?_concat]
  · intro n hinv
    obtain ⟨l, hl⟩ := Option.isSome_iff_exists.mp (hrel n)
    have hc : ¬((collectTimes map event).scint_left_time ≠ INVALID_VALUE ∧
        cebraTimeOf (collectTimes map event) n ≠ INVALID_VALUE) := by
      rcases hinv with h | h <;> simp [h]
    unfold lastVal
    rw [appendEvent_eq, physics_fields_relTime,
      dispatched_pad_fields hal map event (cebraRelField n)
        (cebraRelField_derived n), hl, if_neg hc]
    simp [List.getLast?_concat]
  · intro hinv
    have hc : ¬(computedX1 (collectTimes map event) ≠ INVALID_VALUE ∧
        computedX2 (collectTimes map event) ≠ INVALID_VALUE) := by
      rcases hinv with h | h <;> simp [h]
    constructor
    · unfold lastVal
      rw [appendEvent_eq, physics_fields_theta,
        dispatched_pad_fields hal map event Theta rfl, hlTh, if_neg hc]
      simp [List.getLast?_concat]
    · unfold lastVal
      rw [appendEvent_eq, physics_fields_xavg,
        dispatched_pad_fields hal map event Xavg rfl, hlXa, if_neg hc]
      simp [List.getLast?_concat]

/-- Witness for C10: the front-left delay hit carries timestamp exactly
`-1e6`: the Time column receives it (and so shows the sentinel), and X1
stays at the sentinel although both front hits are present in the event. -/
theorem sentinel_presence_semantics_witness :
    lastVal ((ChannelData.new mapDelay).appendEvent P0
        [⟨0, 1, 1, INVALID_VALUE⟩, ⟨1, 1, 1, 80⟩] mapDelay none)
      DelayFrontLeftTime = some INVALID_VALUE ∧
    lastVal ((ChannelData.new mapDelay).appendEvent P0
        [⟨0, 1, 1, INVALID_VALUE⟩, ⟨1, 1, 1, 80⟩] mapDelay none)
      X1 = some INVALID_VALUE := by
  have h := sentinel_presence_semantics P0 (ChannelData.new mapDelay)
    [⟨0, 1, 1, INVALID_VALUE⟩, ⟨1, 1, 1, 80⟩] mapDelay none
    ChannelType.DelayFrontLeft DelayFrontLeftEnergy DelayFrontLeftShort
    DelayFrontLeftTime ⟨0, 1, 1, INVALID_VALUE⟩ (new_aligned mapDelay) rfl
    (by decide) (by decide) (by decide) (by decide) (by decide) (by decide)
  exact ⟨h.1 (by decide), h.2.1 (Or.inl rfl)⟩

end EVB
